import Mathlib

/-!
Shallow embedding of the ChessMeet backend coordination core
(`backend/src/index.ts`): the `GameRoom` durable object (WebSocket message
handler, broadcast, video-call bootstrap) and the `MatchingQueue` durable
object (single-slot pairing).  The chess legality engine (chess.js) is an
external collaborator and is modelled as an abstract `Validator` function;
the external media service is modelled by its per-call results; storage is
explicit state; side effects (storage puts, socket sends, external calls)
are recorded in an event trace in program order.
-/

namespace ChessMeet

/-- JS string fallback `x || d`: `undefined` and the empty string are falsy.
Models `(await this.ctx.storage.get("fen")) || new Chess().fen()` and
`body.playerId || crypto.randomUUID()`. -/
def jsOr (x : Option String) (d : String) : String :=
  match x with
  | none => d
  | some s => if s = "" then d else s

/-- JS falsiness of an optional string field (absent or empty). -/
def jsFalsy (x : Option String) : Bool :=
  match x with
  | none => true
  | some s => s = ""

/-- The FEN of `new Chess().fen()`: the standard chess starting position. -/
def initialFen : String :=
  "rnbqkbnr/pppppppp/8/8/8/8/PPPPPPPP/RNBQKBNR w KQkq - 0 1"

/-- The Position Validator (chess.js as a black box): given the current FEN
and a move descriptor, `some newFen` on a legal move (the position after
`chess.move`), `none` when `chess.move` throws or rejects (illegal or
malformed descriptor, caught by the room's `try/catch`). -/
abbrev Validator := String → String → Option String

/-- One connected WebSocket as the room sees it at broadcast time
(an element of `this.ctx.getWebSockets()`).  `sendOk` records whether
`ws.send` succeeds on this channel or throws (dead/broken socket). -/
structure Channel where
  id : Nat
  sendOk : Bool
deriving DecidableEq, Repr

/-- An outbound frame `{type, fen, lastMove?}` as serialized for broadcast. -/
structure OutFrame where
  type : String
  fen : String
  lastMove : Option String
deriving DecidableEq, Repr

/-- The update frame `{type: "update", fen, lastMove}` built on a successful
move, and `{type: "update", fen}` (no `lastMove`) on reset. -/
def updateFrame (fen : String) (lastMove : Option String) : OutFrame :=
  ⟨"update", fen, lastMove⟩

/-- Observable side effects of the room and queue, in program order:
storage writes, per-socket send attempts, and external media-service calls. -/
inductive Event
  | persistFen (fen : String)
  | persistMeetingId (id : String)
  | send (chId : Nat) (ok : Bool) (frame : OutFrame)
  | mediaCreate
  | mediaAddParticipant (meetingId : String)
deriving DecidableEq, Repr

/-- Whether an event is a socket send (a frame reaching a participant). -/
def Event.isSend : Event → Bool
  | .send _ _ _ => true
  | _ => false

/-- A single `ws.send(msg)` inside the broadcast loop: succeeds on a live
channel, throws on a broken one. -/
def sendAttempt (ch : Channel) (_frame : OutFrame) : Except String Unit :=
  if ch.sendOk then .ok () else .error "send failed"

/-- `GameRoom.broadcast`: `getWebSockets().forEach(ws => { try { ws.send(msg) }
catch(e) {} })` — attempt every channel in order, swallowing each failure. -/
def broadcast : List Channel → OutFrame → List Event
  | [], _ => []
  | ch :: rest, frame =>
    match sendAttempt ch frame with
    | .ok _ => .send ch.id true frame :: broadcast rest frame
    | .error _ => .send ch.id false frame :: broadcast rest frame

/-- The room's durable storage: keys `"fen"` and `"meetingId"`. -/
structure Storage where
  fen : Option String
  meetingId : Option String
deriving DecidableEq, Repr

/-- A successfully parsed inbound JSON object: its `type` tag and its
optional `move` field (absent when the JSON has no `move` key). -/
structure ParsedFrame where
  type : String
  move : Option String
deriving DecidableEq, Repr

/-- An inbound WebSocket message: either text `JSON.parse` rejects, or a
parsed frame. -/
inductive InboundMsg
  | unparseable
  | parsed (frame : ParsedFrame)
deriving DecidableEq, Repr

/-- Result of one `webSocketMessage` invocation: the storage afterwards, the
event trace in program order, and whether an exception escaped the handler
uncaught. -/
structure StepResult where
  storage : Storage
  events : List Event
  threw : Bool
deriving DecidableEq, Repr

/-- `GameRoom.webSocketMessage`: parse the message (an uncaught throw on
failure), read the stored FEN with the `|| new Chess().fen()` fallback, then
dispatch on `data.type`.  A `"move"` frame runs `chess.move(data.move)`
inside `try/catch` (an absent `move` field makes `chess.move(undefined)`
throw, caught like an illegal move); on success it persists the new FEN and
then broadcasts the update to every connected socket.  A `"reset"` frame
unconditionally persists the initial FEN and broadcasts.  Any other tag
falls off the `if/else if` chain and does nothing. -/
def webSocketMessage (val : Validator) (channels : List Channel) (st : Storage) :
    InboundMsg → StepResult
  | .unparseable => ⟨st, [], true⟩
  | .parsed frame =>
    let currentFen := jsOr st.fen initialFen
    if frame.type = "move" then
      match frame.move with
      | none => ⟨st, [], false⟩
      | some m =>
        match val currentFen m with
        | some newFen =>
          ⟨⟨some newFen, st.meetingId⟩,
           .persistFen newFen :: broadcast channels (updateFrame newFen (some m)),
           false⟩
        | none => ⟨st, [], false⟩
    else if frame.type = "reset" then
      ⟨⟨some initialFen, st.meetingId⟩,
       .persistFen initialFen :: broadcast channels (updateFrame initialFen none),
       false⟩
    else
      ⟨st, [], false⟩

/-- The inbound frame `{type: "move", move: m}`. -/
def moveFrame (m : String) : InboundMsg :=
  .parsed ⟨"move", some m⟩

/-- Process a sequence of inbound messages one at a time (the durable
object delivers them serially; a throw on one message does not stop
delivery of the next). -/
def runMsgs (val : Validator) (channels : List Channel) :
    Storage → List InboundMsg → Storage
  | st, [] => st
  | st, msg :: rest =>
      runMsgs val channels (webSocketMessage val channels st msg).storage rest

/-- The Validator's fold: apply a list of move descriptors from a starting
FEN, failing as soon as one is rejected. -/
def applyAll (val : Validator) : String → List String → Option String
  | fen, [] => some fen
  | fen, m :: ms =>
    match val fen m with
    | some f2 => applyAll val f2 ms
    | none => none

/-- Response body of `POST /api/queue/join`.  The same-player retry branch
returns only `{status: "waiting"}`; the first-arrival branch returns
`{status: "waiting", gameId, color: "white"}`; the pairing branch returns
`{status: "matched", gameId, color: "black", opponentId}`. -/
inductive JoinResponse
  | waitingBare
  | waitingNew (gameId : String) (color : String)
  | matched (gameId : String) (color : String) (opponentId : String)
deriving DecidableEq, Repr

/-- Whether a join response has `status: "matched"`. -/
def JoinResponse.isMatched : JoinResponse → Bool
  | .matched _ _ _ => true
  | _ => false

/-- `MatchingQueue.fetch`: read the `"waiting"` slot, resolve the incoming
player id (`body.playerId || crypto.randomUUID()`), then: occupied with the
same id → bare waiting, slot kept; occupied with a distinct id → delete the
slot and answer matched with a fresh `gameId` and the stored id as opponent;
empty → store the incoming id and answer waiting with a fresh `gameId`.
`fresh1` and `fresh2` are the values of the up-to-two `crypto.randomUUID()`
calls in program order: `fresh1` is the incoming id when the body's
`playerId` is falsy, and the next generation (the `gameId`, when one is
minted) uses the first unconsumed value. -/
def queueFetch (fresh1 fresh2 : String) (slot : Option String)
    (bodyPlayerId : Option String) : Option String × JoinResponse :=
  let incomingPlayerId := jsOr bodyPlayerId fresh1
  let nextFresh := if jsFalsy bodyPlayerId then fresh2 else fresh1
  match slot with
  | some waitingId =>
    if waitingId = incomingPlayerId then
      (slot, .waitingBare)
    else
      (none, .matched nextFresh "black" waitingId)
  | none =>
    (some incomingPlayerId, .waitingNew nextFresh "white")

/-- Outcome of one external media-service HTTP call as the room observes it:
`ok value` when the response is OK and carries `data` (with `value` the
meeting id resp. participant token), `err msg` otherwise (the thrown
error's message). -/
inductive MediaResult
  | ok (value : String)
  | err (msg : String)
deriving DecidableEq, Repr

/-- Whether a media-service call failed. -/
def MediaResult.isErr : MediaResult → Bool
  | .err _ => true
  | _ => false

/-- Response of the `/call` endpoint: `{authToken, appId, meetingId}` on
success, `{error}` with status 500 when the `catch` block runs. -/
inductive CallResponse
  | success (authToken : String) (appId : String) (meetingId : String)
  | failure (error : String)
deriving DecidableEq, Repr

/-- Result of one `/call` request: storage afterwards, the HTTP response,
and the event trace (external calls and storage writes) in program order. -/
structure CallOutcome where
  storage : Storage
  response : CallResponse
  events : List Event
deriving DecidableEq, Repr

/-- The create path of `/call`, taken when `if (!meetingId)` holds: create
a meeting via the media service (`createRes`) — a failure is thrown and
caught, answering `{error}` with nothing persisted — then persist the
returned id (overwriting whatever falsy value was cached) and add a
participant (`participantRes`): a failure is thrown and caught, answering
`{error}` with the freshly created meeting id staying persisted; on
success answer `{authToken, appId, meetingId}`. -/
def createAndJoin (appId : String) (createRes participantRes : MediaResult)
    (st : Storage) : CallOutcome :=
  match createRes with
  | .err e => ⟨st, .failure e, [.mediaCreate]⟩
  | .ok m =>
    match participantRes with
    | .ok token =>
      ⟨⟨st.fen, some m⟩, .success token appId m,
       [.mediaCreate, .persistMeetingId m, .mediaAddParticipant m]⟩
    | .err e =>
      ⟨⟨st.fen, some m⟩, .failure e,
       [.mediaCreate, .persistMeetingId m, .mediaAddParticipant m]⟩

/-- The reuse path of `/call`, taken when the cached `meetingId` is truthy:
only add a participant to the cached meeting `m`, answering `{error}` on a
thrown-and-caught failure and `{authToken, appId, meetingId}` on success;
storage is untouched. -/
def joinCached (appId : String) (participantRes : MediaResult)
    (st : Storage) (m : String) : CallOutcome :=
  match participantRes with
  | .ok token => ⟨st, .success token appId m, [.mediaAddParticipant m]⟩
  | .err e => ⟨st, .failure e, [.mediaAddParticipant m]⟩

/-- The `/call` branch of `GameRoom.fetch` (`requestVideoSession`): read the
cached `meetingId` and test it with JS falsiness — `if (!meetingId)` treats
both an absent and an empty-string id as missing — creating a meeting on
the falsy path and reusing the cached id on the truthy one.  The board FEN
is never touched and nothing is broadcast on this path. -/
def requestVideoSession (appId : String) (createRes participantRes : MediaResult)
    (st : Storage) : CallOutcome :=
  match st.meetingId with
  | none => createAndJoin appId createRes participantRes st
  | some m =>
    if m = "" then createAndJoin appId createRes participantRes st
    else joinCached appId participantRes st m

/-- A concrete example validator used to instantiate theorems with
hypotheses on concrete inputs: from the initial position it accepts exactly
the descriptor `"e4"`, producing the (abstract) position `"FEN-A"`. -/
def valEx : Validator := fun f m =>
  if f = initialFen ∧ m = "e4" then some "FEN-A" else none

/- ## Lemmas and theorems -/

/-- Unfolding of the per-recipient try/catch loop: `broadcast` attempts a
send on every channel, in order, regardless of which sends fail. -/
lemma broadcast_eq_map (channels : List Channel) (frame : OutFrame) :
    broadcast channels frame =
      channels.map (fun ch => Event.send ch.id ch.sendOk frame) := by
  induction channels with
  | nil => rfl
  | cons ch rest ih =>
    cases h : ch.sendOk <;> simp [broadcast, sendAttempt, h, ih]

/-- A move accepted by the Validator: the handler stores the new FEN,
persists it first, then attempts a send to every connected channel. -/
lemma webSocketMessage_move_ok (val : Validator) (channels : List Channel) (st : Storage)
    (m newFen : String) (h : val (jsOr st.fen initialFen) m = some newFen) :
    webSocketMessage val channels st (moveFrame m) =
      ⟨⟨some newFen, st.meetingId⟩,
       .persistFen newFen ::
         channels.map (fun ch => Event.send ch.id ch.sendOk (updateFrame newFen (some m))),
       false⟩ := by
  simp [webSocketMessage, moveFrame, h, broadcast_eq_map]

/-- Processing a list of Validator-accepted moves folds the Validator over
the stored FEN and leaves the cached meeting id untouched. -/
lemma runMsgs_moves (val : Validator) (channels : List Channel)
    (hval : ∀ f mv f2, val f mv = some f2 → f2 ≠ "")
    (ms : List String) :
    ∀ (f fen : String) (mid : Option String), f ≠ "" →
      applyAll val f ms = some fen →
      runMsgs val channels ⟨some f, mid⟩ (ms.map moveFrame) = ⟨some fen, mid⟩ := by
  induction ms with
  | nil =>
    intro f fen mid hf hfold
    simp [applyAll] at hfold
    simp [runMsgs, hfold]
  | cons m ms ih =>
    intro f fen mid hf hfold
    rw [applyAll] at hfold
    cases hv : val f m with
    | none => rw [hv] at hfold; cases hfold
    | some f2 =>
      rw [hv] at hfold
      simp only at hfold
      have hj : jsOr (some f) initialFen = f := by simp [jsOr, hf]
      have hstep : val (jsOr (Storage.mk (some f) mid).fen initialFen) m = some f2 := by
        simpa [hj] using hv
      rw [List.map, runMsgs, webSocketMessage_move_ok val channels ⟨some f, mid⟩ m f2 hstep]
      exact ih f2 fen mid (hval f m f2 hv) hfold

/-- The example validator only ever produces a non-empty FEN. -/
lemma valEx_nonempty : ∀ f mv f2, valEx f mv = some f2 → f2 ≠ "" := by
  intro f mv f2 h
  unfold valEx at h
  split at h
  · injection h with h2
    subst h2
    decide
  · cases h

/-- C1: a room fed a sequence of Validator-accepted move frames from the
initial position ends with the Validator's fold as its stored position; each
accepted move stores the Validator's result, records the persist event
before any send, and attempts a send of the update frame (new FEN plus the
submitted descriptor) to every connected channel — the mover's channel, as
an element of `getWebSockets()`, included. -/
theorem gameRoom_move_fold_persist_broadcast (val : Validator) (channels : List Channel)
    (mid : Option String) (ms : List String) (fen : String) (st : Storage) (m newFen : String)
    (hval : ∀ f mv f2, val f mv = some f2 → f2 ≠ "")
    (hfold : applyAll val initialFen ms = some fen)
    (hstep : val (jsOr st.fen initialFen) m = some newFen) :
    runMsgs val channels ⟨some initialFen, mid⟩ (ms.map moveFrame) = ⟨some fen, mid⟩ ∧
    webSocketMessage val channels st (moveFrame m) =
      ⟨⟨some newFen, st.meetingId⟩,
       .persistFen newFen ::
         channels.map (fun ch => Event.send ch.id ch.sendOk (updateFrame newFen (some m))),
       false⟩ :=
  ⟨runMsgs_moves val channels hval ms initialFen fen mid (by decide) hfold,
   webSocketMessage_move_ok val channels st m newFen hstep⟩

/-- C1 witness: the concrete validator, one accepted move `"e4"`, a live
and a broken channel. -/
theorem gameRoom_move_fold_persist_broadcast_witness :
    runMsgs valEx [⟨0, true⟩, ⟨1, false⟩] ⟨some initialFen, none⟩ (["e4"].map moveFrame) =
      ⟨some "FEN-A", none⟩ ∧
    webSocketMessage valEx [⟨0, true⟩, ⟨1, false⟩] ⟨some initialFen, none⟩ (moveFrame "e4") =
      ⟨⟨some "FEN-A", none⟩,
       .persistFen "FEN-A" ::
         [(⟨0, true⟩ : Channel), ⟨1, false⟩].map
           (fun ch => Event.send ch.id ch.sendOk (updateFrame "FEN-A" (some "e4"))),
       false⟩ :=
  gameRoom_move_fold_persist_broadcast valEx [⟨0, true⟩, ⟨1, false⟩] none ["e4"] "FEN-A"
    ⟨some initialFen, none⟩ "e4" "FEN-A" valEx_nonempty (by decide) (by decide)

/-- C2: the Matching Queue's join — empty slot: store the caller's id and
answer waiting with a provisional `gameId` and the first side (white), slot
becomes occupied; occupied with a distinct incoming id: clear the slot and
answer matched with a freshly minted `gameId`, the second side (black) and
the stored id as peer; occupied with the same id: answer bare waiting with
the slot kept; and a join against an empty slot is never matched, so a
pairing that cleared the slot can never be reported matched twice. -/
theorem matchingQueue_join_cases (f1 f2 g1 g2 w x : String) (body2 : Option String)
    (hw : w ≠ "") (hx : x ≠ "") (hne : x ≠ w) :
    queueFetch f1 f2 none (some w) = (some w, .waitingNew f1 "white") ∧
    queueFetch f1 f2 (some w) (some x) = (none, .matched f1 "black" w) ∧
    queueFetch f1 f2 (some w) (some w) = (some w, .waitingBare) ∧
    ((queueFetch g1 g2 none body2).2).isMatched = false := by
  refine ⟨?_, ?_, ?_, ?_⟩
  · simp [queueFetch, jsOr, jsFalsy, hw]
  · simp [queueFetch, jsOr, jsFalsy, hx, Ne.symm hne]
  · simp [queueFetch, jsOr, jsFalsy, hw]
  · cases body2 with
    | none => simp [queueFetch, JoinResponse.isMatched]
    | some p => simp [queueFetch, JoinResponse.isMatched]

/-- C2 witness: player "A" joins an empty queue, "B" pairs with "A",
a retry by "A" while waiting, and a join against the emptied slot. -/
theorem matchingQueue_join_cases_witness :
    queueFetch "u1" "u2" none (some "A") = (some "A", .waitingNew "u1" "white") ∧
    queueFetch "u1" "u2" (some "A") (some "B") = (none, .matched "u1" "black" "A") ∧
    queueFetch "u1" "u2" (some "A") (some "A") = (some "A", .waitingBare) ∧
    ((queueFetch "u3" "u4" none (some "B")).2).isMatched = false :=
  matchingQueue_join_cases "u1" "u2" "u3" "u4" "A" "B" (some "B")
    (by decide) (by decide) (by decide)

/-- C3: a move frame whose descriptor the Validator rejects leaves the
storage unchanged and produces no events — no send reaches any channel,
the submitter included — and no exception escapes. -/
theorem gameRoom_illegal_move_silent (val : Validator) (channels : List Channel)
    (st : Storage) (m : String) (h : val (jsOr st.fen initialFen) m = none) :
    webSocketMessage val channels st (moveFrame m) = ⟨st, [], false⟩ := by
  simp [webSocketMessage, moveFrame, h]

/-- C3 witness: the concrete validator rejects `"zz"` at the initial
position. -/
theorem gameRoom_illegal_move_silent_witness :
    webSocketMessage valEx [⟨0, true⟩] ⟨some initialFen, none⟩ (moveFrame "zz") =
      ⟨⟨some initialFen, none⟩, [], false⟩ :=
  gameRoom_illegal_move_silent valEx [⟨0, true⟩] ⟨some initialFen, none⟩ "zz" (by decide)

/-- C4 counterexample: an unparseable message makes the handler throw an
uncaught exception (`threw = true`), while an illegal move does not — so a
malformed message is not rejected "the same way as an illegal move", and
the handler does raise an uncaught error, contrary to the claim. -/
theorem gameRoom_unparseable_throws_counterexample :
    (webSocketMessage valEx [⟨0, true⟩] ⟨some initialFen, none⟩ .unparseable).threw = true ∧
    (webSocketMessage valEx [⟨0, true⟩] ⟨some initialFen, none⟩ (moveFrame "zz")).threw = false := by
  decide

/-- C4 amended: a parsed move frame with an absent (or, via the Validator,
unparseable) descriptor is handled exactly like an illegal move — storage
unchanged, no events, no escaping exception; an unparseable message also
leaves storage unchanged and sends nothing, but the `JSON.parse` error
escapes the handler uncaught instead of being swallowed. -/
theorem gameRoom_malformed_handling_amended (val : Validator) (channels : List Channel)
    (st : Storage) :
    webSocketMessage val channels st (.parsed ⟨"move", none⟩) = ⟨st, [], false⟩ ∧
    webSocketMessage val channels st .unparseable = ⟨st, [], true⟩ := by
  constructor
  · simp [webSocketMessage]
  · rfl

/-- The WebSocket message handler never touches the cached meeting id. -/
lemma webSocketMessage_meetingId (val : Validator) (channels : List Channel)
    (st : Storage) (msg : InboundMsg) :
    (webSocketMessage val channels st msg).storage.meetingId = st.meetingId := by
  cases msg with
  | unparseable => rfl
  | parsed frame =>
    by_cases h1 : frame.type = "move"
    · cases hmv : frame.move with
      | none => simp [webSocketMessage, h1, hmv]
      | some m =>
        cases hv : val (jsOr st.fen initialFen) m with
        | none => simp [webSocketMessage, h1, hmv, hv]
        | some nf => simp [webSocketMessage, h1, hmv, hv]
    · by_cases h2 : frame.type = "reset" <;> simp [webSocketMessage, h1, h2]

/-- C5: on a fresh room (no cached meeting id) with a succeeding media
service returning a non-empty meeting id — a truthy id, as the source's
`if (!meetingId)` check requires for reuse — two sequential `/call`
requests answer the same meeting id, the combined trace holds exactly one
meeting-creation call, and the cached id, once set, survives any later
`/call` request and any later WebSocket message. -/
theorem videoSession_idempotent (appId m token1 token2 : String) (cr2 cr3 pr3 : MediaResult)
    (msg : InboundMsg) (val : Validator) (channels : List Channel) (st0 : Storage)
    (h0 : st0.meetingId = none) (hm : m ≠ "") :
    (requestVideoSession appId (.ok m) (.ok token1) st0).response = .success token1 appId m ∧
    (requestVideoSession appId cr2 (.ok token2)
        (requestVideoSession appId (.ok m) (.ok token1) st0).storage).response =
      .success token2 appId m ∧
    ((requestVideoSession appId (.ok m) (.ok token1) st0).events ++
      (requestVideoSession appId cr2 (.ok token2)
        (requestVideoSession appId (.ok m) (.ok token1) st0).storage).events).count
      .mediaCreate = 1 ∧
    (requestVideoSession appId cr3 pr3
        (requestVideoSession appId (.ok m) (.ok token1) st0).storage).storage.meetingId =
      some m ∧
    (webSocketMessage val channels
        (requestVideoSession appId (.ok m) (.ok token1) st0).storage msg).storage.meetingId =
      some m := by
  have h1 : requestVideoSession appId (.ok m) (.ok token1) st0 =
      ⟨⟨st0.fen, some m⟩, .success token1 appId m,
       [.mediaCreate, .persistMeetingId m, .mediaAddParticipant m]⟩ := by
    simp [requestVideoSession, createAndJoin, h0]
  refine ⟨by rw [h1], ?_, ?_, ?_, ?_⟩
  · rw [h1]; simp [requestVideoSession, joinCached, hm]
  · rw [h1]; simp [requestVideoSession, joinCached, hm, List.count_cons, List.count_append]
  · rw [h1]; cases pr3 <;> simp [requestVideoSession, joinCached, hm]
  · rw [h1, webSocketMessage_meetingId]

/-- C5 witness: a fresh room, meeting `"m1"` created once, two tokens
issued, then a failing media service and a move which both leave the cached
id in place. -/
theorem videoSession_idempotent_witness :
    (requestVideoSession "app" (.ok "m1") (.ok "t1") ⟨some initialFen, none⟩).response =
      .success "t1" "app" "m1" ∧
    (requestVideoSession "app" (.err "x") (.ok "t2")
        (requestVideoSession "app" (.ok "m1") (.ok "t1") ⟨some initialFen, none⟩).storage).response =
      .success "t2" "app" "m1" ∧
    ((requestVideoSession "app" (.ok "m1") (.ok "t1") ⟨some initialFen, none⟩).events ++
      (requestVideoSession "app" (.err "x") (.ok "t2")
        (requestVideoSession "app" (.ok "m1") (.ok "t1") ⟨some initialFen, none⟩).storage).events).count
      .mediaCreate = 1 ∧
    (requestVideoSession "app" (.err "y") (.err "z")
        (requestVideoSession "app" (.ok "m1") (.ok "t1") ⟨some initialFen, none⟩).storage).storage.meetingId =
      some "m1" ∧
    (webSocketMessage valEx [⟨0, true⟩]
        (requestVideoSession "app" (.ok "m1") (.ok "t1") ⟨some initialFen, none⟩).storage
        (moveFrame "e4")).storage.meetingId = some "m1" :=
  videoSession_idempotent "app" "m1" "t1" "t2" (.err "x") (.err "y") (.err "z")
    (moveFrame "e4") valEx [⟨0, true⟩] ⟨some initialFen, none⟩ rfl (by decide)

/-- C6: a reset frame, from any prior storage, stores the initial position,
records the persist before any send, and attempts a send of the update
frame to every connected channel. -/
theorem gameRoom_reset_unconditional (val : Validator) (channels : List Channel)
    (st : Storage) (mv : Option String) :
    webSocketMessage val channels st (.parsed ⟨"reset", mv⟩) =
      ⟨⟨some initialFen, st.meetingId⟩,
       .persistFen initialFen ::
         channels.map (fun ch => Event.send ch.id ch.sendOk (updateFrame initialFen none)),
       false⟩ := by
  simp [webSocketMessage, broadcast_eq_map]

/-- C7 counterexample: with no cached meeting id, a successful creation
followed by a failed participant call answers a structured error — yet the
freshly created meeting id has been cached, so the cached session state is
not unchanged by the failed call, contrary to the claim. -/
theorem videoSession_failure_caches_counterexample :
    (requestVideoSession "app" (.ok "m1") (.err "boom") ⟨some initialFen, none⟩).response =
      .failure "boom" ∧
    (⟨some initialFen, none⟩ : Storage).meetingId = none ∧
    (requestVideoSession "app" (.ok "m1") (.err "boom") ⟨some initialFen, none⟩).storage.meetingId =
      some "m1" := by
  decide

/-- C7 amended: a failed `/call` request answers the error to the caller
only — the stored position is unchanged and the trace holds no send — and
the cached session id is unchanged whenever a truthy (non-empty) id was
already cached, or the `if (!meetingId)` check found no usable id and the
creation call itself failed; only when the cached id was falsy (absent or
empty), creation succeeded, and credential issuance then failed does the
newly created id remain cached despite the error. -/
theorem videoSession_failure_amended (appId e m : String) (cr pr : MediaResult) (st : Storage)
    (hfail : (requestVideoSession appId cr pr st).response = .failure e) :
    (requestVideoSession appId cr pr st).storage.fen = st.fen ∧
    ((requestVideoSession appId cr pr st).events.filter Event.isSend) = [] ∧
    (jsFalsy st.meetingId = false →
      (requestVideoSession appId cr pr st).storage.meetingId = st.meetingId) ∧
    (jsFalsy st.meetingId = true → cr.isErr = true →
      (requestVideoSession appId cr pr st).storage.meetingId = st.meetingId) ∧
    (jsFalsy st.meetingId = true → cr = .ok m →
      (requestVideoSession appId cr pr st).storage.meetingId = some m) := by
  rcases st with ⟨f, mi⟩
  rcases mi with _ | s
  · cases cr <;> cases pr <;>
      simp [requestVideoSession, createAndJoin, jsFalsy, Event.isSend, MediaResult.isErr]
  · by_cases hs : s = ""
    · subst hs
      cases cr <;> cases pr <;>
        simp [requestVideoSession, createAndJoin, jsFalsy, Event.isSend, MediaResult.isErr]
    · cases cr <;> cases pr <;>
        simp [requestVideoSession, joinCached, jsFalsy, hs, Event.isSend, MediaResult.isErr]

/-- C7 amended witness: creation succeeds with `"m1"`, participant call
fails with `"boom"`, on a room with no cached id. -/
theorem videoSession_failure_amended_witness :
    (requestVideoSession "app" (.ok "m1") (.err "boom") ⟨some initialFen, none⟩).storage.fen =
      (⟨some initialFen, none⟩ : Storage).fen ∧
    ((requestVideoSession "app" (.ok "m1") (.err "boom") ⟨some initialFen, none⟩).events.filter
      Event.isSend) = [] ∧
    (jsFalsy (⟨some initialFen, none⟩ : Storage).meetingId = false →
      (requestVideoSession "app" (.ok "m1") (.err "boom") ⟨some initialFen, none⟩).storage.meetingId =
        (⟨some initialFen, none⟩ : Storage).meetingId) ∧
    (jsFalsy (⟨some initialFen, none⟩ : Storage).meetingId = true → MediaResult.isErr (.ok "m1") = true →
      (requestVideoSession "app" (.ok "m1") (.err "boom") ⟨some initialFen, none⟩).storage.meetingId =
        (⟨some initialFen, none⟩ : Storage).meetingId) ∧
    (jsFalsy (⟨some initialFen, none⟩ : Storage).meetingId = true → MediaResult.ok "m1" = .ok "m1" →
      (requestVideoSession "app" (.ok "m1") (.err "boom") ⟨some initialFen, none⟩).storage.meetingId =
        some "m1") :=
  videoSession_failure_amended "app" "boom" "m1" (.ok "m1") (.err "boom")
    ⟨some initialFen, none⟩ rfl

/-- C8: the broadcast loop attempts a send on every connected channel in
order — a failing channel is recorded and swallowed, never shortening the
delivery list or raising an error (the loop is a total function of the
channel list). -/
theorem broadcast_attempts_all (channels : List Channel) (frame : OutFrame) :
    broadcast channels frame =
      channels.map (fun ch => Event.send ch.id ch.sendOk frame) ∧
    (broadcast channels frame).length = channels.length := by
  refine ⟨broadcast_eq_map channels frame, ?_⟩
  rw [broadcast_eq_map]
  exact List.length_map channels _

/-- C9: a parsed frame whose tag is neither `"move"` nor `"reset"` falls
off the dispatch chain — storage unchanged, no events sent to any channel,
no exception. -/
theorem gameRoom_unknown_type_ignored (val : Validator) (channels : List Channel)
    (st : Storage) (t : String) (mv : Option String)
    (h1 : t ≠ "move") (h2 : t ≠ "reset") :
    webSocketMessage val channels st (.parsed ⟨t, mv⟩) = ⟨st, [], false⟩ := by
  simp [webSocketMessage, h1, h2]

/-- C9 witness: a `"ping"` frame is silently ignored. -/
theorem gameRoom_unknown_type_ignored_witness :
    webSocketMessage valEx [⟨0, true⟩] ⟨some initialFen, none⟩ (.parsed ⟨"ping", none⟩) =
      ⟨⟨some initialFen, none⟩, [], false⟩ :=
  gameRoom_unknown_type_ignored valEx [⟨0, true⟩] ⟨some initialFen, none⟩ "ping" none
    (by decide) (by decide)

/-- C10: an anonymous join (absent `playerId`) while the slot is occupied
resolves to a freshly generated id before the comparison; whenever that
fresh id differs from the stored one the result is matched and the slot is
consumed — the idempotent retry branch is unreachable for anonymous
callers. -/
theorem matchingQueue_anonymous_rejoin_matches (f1 f2 w : String) (h : f1 ≠ w) :
    queueFetch f1 f2 (some w) none = (none, .matched f2 "black" w) := by
  simp [queueFetch, jsOr, jsFalsy, Ne.symm h]

/-- C10 witness: the stored waiting entry `"A"` (possibly this caller's own
earlier anonymous join) is paired with the freshly generated `"u1"`. -/
theorem matchingQueue_anonymous_rejoin_matches_witness :
    queueFetch "u1" "u2" (some "A") none = (none, .matched "u2" "black" "A") :=
  matchingQueue_anonymous_rejoin_matches "u1" "u2" "A" (by decide)

end ChessMeet
